import Mathlib

/-!
Verification of the job-listing extraction engine.

The development shallowly embeds the two generic extractors
(`src/extractors/base_extractor.py`, here prefixed `b1`, and
`src/extractors/base2_extractor.py`, prefixed `b2`) together with the
readiness detector of `src/utils/scraper.py`.  DOM access is modelled by
environments: a `Container` answers `querySelector` calls through a
function from selector strings to query results, and a `Doc` answers
`querySelectorAll` likewise.  Fallible browser operations (navigation,
idle waits, evaluation transport, page close) are modelled by `World`
records that fix the outcome of each operation of a run; exceptions are
modelled with `Except`, so "the function raises" is `.error` and "the
function returns v" is `.ok v`.
-/

namespace JobScrape

/-! ## Records -/

/-- Record shape pushed by the inline `page.evaluate` pass of
`base_extractor.extract`: `jobs.push({ title, location, url, job_id })`. -/
structure PageJob where
  title : String
  location : String
  url : String
  job_id : String
deriving DecidableEq, Repr

/-- Record shape produced by `extract_job_links` (both modules):
`JSON.stringify({ url, title, location })`. -/
structure LinkJob where
  url : String
  title : String
  location : String
deriving DecidableEq, Repr

/-! ## DOM model -/

/-- A DOM element as far as the extraction scripts observe it:
`textContent` and `href` (empty string modelling a missing/empty href,
matching JavaScript falsiness of `element.href`). -/
structure Node where
  textContent : String
  href : String
deriving DecidableEq, Repr

/-- Outcome of `container.querySelector(sel)`: an element, `null`, or a
thrown error (malformed / unsupported selector syntax). -/
inductive QRes where
  | found : Node → QRes
  | absent : QRes
  | err : QRes
deriving DecidableEq, Repr

/-- A job container element: its own tag name, text content and href
(consulted when the container itself is an `<a>`), plus the behaviour of
`querySelector` on it. -/
structure Container where
  tagName : String
  textContent : String
  href : String
  query : String → QRes

/-- Outcome of `document.querySelectorAll(sel)`: a (possibly empty) match
list, or a thrown error for malformed selector syntax. -/
inductive QAllRes where
  | ok : List Container → QAllRes
  | err : QAllRes

/-- The document of one rendered page, observed through
`document.querySelectorAll`. -/
structure Doc where
  queryAll : String → QAllRes

/-! ## Selector pattern data (transcribed from the sources) -/

/-- Container selector cascade of `base_extractor.py` (`self.selectors['containers']`). -/
def b1_containers : List String :=
  [".job-tile", "[data-job-id]", "div[class*=\"job\"]",
   "div[class*=\"career\"]", "div[class*=\"position\"]",
   ".careers-list", ".job-card", "[class*=\"job-item\"]",
   "article", ".listing", ".posting",
   ".bx--card-group__card", ".bx--tile.bx--card",
   ".bx--card__wrapper", ".bx--card__content",
   "a[ph-tevent=\"job_click\"]",
   "a[data-ph-at-id=\"job-link\"]",
   ".table--advanced-search__row",
   "tr[class*=\"table--advanced-search\"]"]

/-- Title selector cascade of `base_extractor.py`. -/
def b1_title_selectors : List String :=
  [".job-title", "[class*=\"job-title\"]", "[class*=\"role-title\"]",
   "h1", "h2", "h3", "h4", "[class*=\"title\"]",
   ".bx--card__heading", ".bx--card__title",
   "div.job-title span",
   "[data-ph-at-job-title-text]",
   ".table--advanced-search__title",
   "a[id^=\"jotTitle_\"]"]

/-- Location selector cascade of `base_extractor.py`. -/
def b1_location_selectors : List String :=
  [".location-text", "[class*=\"location\"]", ".job-location",
   "[data-location]", "[class*=\"city\"]", "[class*=\"region\"]",
   ".ibm--card__copy__inner", ".bx--card__copy",
   "[data-ph-at-job-location-text]",
   ".table--advanced-search__location"]

/-- Link selector cascade of `base_extractor.py`. -/
def b1_link_selectors : List String :=
  ["a[href*=\"/jobs/\"]",
   "a[href*=\"/careers/\"]",
   "a[href*=\"/positions/\"]",
   "a[href*=\"/opportunities/\"]",
   "a[href*=\"/openings/\"]",
   "a[href*=\"/vacancy/\"]",
   "a[href*=\"/role/\"]",
   "a[href*=\"/details/\"]",
   "a[href*=\"/description/\"]",
   "a[href*=\"/apply/\"]",
   "a[href*=\"job\"]",
   "a[href*=\"career\"]",
   "a[href*=\"position\"]",
   "a[href*=\"posting\"]",
   "a[href*=\"vacancy\"]",
   "a[href*=\"opening\"]",
   "a[href*=\"requisition\"]",
   "a[href*=\"req-id\"]",
   "a[href*=\"jobid\"]",
   "a[href*=\"linkedin.com/jobs\"]",
   "a[href*=\"workday.com/\"]",
   "a[href*=\"lever.co/\"]",
   "a[href*=\"greenhouse.io/\"]",
   "a[href*=\"smartrecruiters.com\"]",
   "a[href*=\"recruitingsite.com\"]",
   "a[href*=\"brassring.com\"]",
   "a[href*=\"icims.com\"]",
   "a[href*=\"?job=\"]",
   "a[href*=\"?posting=\"]",
   "a[href*=\"?position=\"]",
   "a[href*=\"?req=\"]",
   "a[href*=\"?id=\"]",
   "a[class*=\"job-link\"]",
   "a[class*=\"career-link\"]",
   "a[class*=\"position-link\"]",
   "a[class*=\"posting-link\"]",
   "a[id*=\"job-link\"]",
   "a[data-job-id]",
   "a[data-posting-id]",
   "a[href*=\"employment\"]",
   "a[href*=\"work-with-us\"]",
   "a[href*=\"join-our-team\"]",
   "a[href*=\"job-search\"]",
   "a[href*=\"career-search\"]",
   "a[href*=\"careers.ibm.com/job\"]",
   "a[ph-tevent=\"job_click\"]",
   "a[href*=\"pgcareers.com/\"]",
   "a[href^=\"/en-in/details/\"]",
   "a[id^=\"jotTitle_\"]"]

/-- Container selector cascade of `base2_extractor.py`. -/
def b2_containers : List String :=
  [".job-tile", "[data-job-id]", "div[class*=\"job\"]",
   "div[class*=\"career\"]", "div[class*=\"position\"]",
   ".careers-list", ".job-card", "[class*=\"job-item\"]",
   "article", ".listing", ".posting"]

/-- Title selector cascade of `base2_extractor.py`. -/
def b2_title_selectors : List String :=
  [".job-title", "[class*=\"job-title\"]", "[class*=\"role-title\"]",
   "h1", "h2", "h3", "h4", "[class*=\"title\"]"]

/-- Location selector cascade of `base2_extractor.py`. -/
def b2_location_selectors : List String :=
  [".location-text", "[class*=\"location\"]", ".job-location",
   "[data-location]", "[class*=\"city\"]", "[class*=\"region\"]"]

/-- Link selector cascade of `base2_extractor.py`. -/
def b2_link_selectors : List String :=
  ["a[href*=\"/jobs/\"]",
   "a[href*=\"/careers/\"]",
   "a[href*=\"/positions/\"]",
   "a[href*=\"/opportunities/\"]",
   "a[href*=\"/openings/\"]",
   "a[href*=\"/vacancy/\"]",
   "a[href*=\"/role/\"]",
   "a[href*=\"/details/\"]",
   "a[href*=\"/description/\"]",
   "a[href*=\"/apply/\"]",
   "a[href*=\"job\"]",
   "a[href*=\"career\"]",
   "a[href*=\"position\"]",
   "a[href*=\"posting\"]",
   "a[href*=\"vacancy\"]",
   "a[href*=\"opening\"]",
   "a[href*=\"requisition\"]",
   "a[href*=\"req-id\"]",
   "a[href*=\"jobid\"]",
   "a[href*=\"linkedin.com/jobs\"]",
   "a[href*=\"workday.com/\"]",
   "a[href*=\"lever.co/\"]",
   "a[href*=\"greenhouse.io/\"]",
   "a[href*=\"smartrecruiters.com\"]",
   "a[href*=\"recruitingsite.com\"]",
   "a[href*=\"brassring.com\"]",
   "a[href*=\"icims.com\"]",
   "a[href*=\"?job=\"]",
   "a[href*=\"?posting=\"]",
   "a[href*=\"?position=\"]",
   "a[href*=\"?req=\"]",
   "a[href*=\"?id=\"]",
   "a[class*=\"job-link\"]",
   "a[class*=\"career-link\"]",
   "a[class*=\"position-link\"]",
   "a[class*=\"posting-link\"]",
   "a[id*=\"job-link\"]",
   "a[data-job-id]",
   "a[data-posting-id]",
   "a[href*=\"employment\"]",
   "a[href*=\"work-with-us\"]",
   "a[href*=\"join-our-team\"]",
   "a[href*=\"job-search\"]",
   "a[href*=\"career-search\"]"]

/-- Container patterns of `JobScraper.job_patterns['container_patterns']`
in `src/utils/scraper.py`, used by `wait_for_page_load`. -/
def scraper_container_patterns : List String :=
  [".job-tile", ".jobs-list", ".job-card",
   "div[class*=\"job\"]", "div[class*=\"career\"]",
   "[data-job-id]", "[class*=\"job-item\"]"]

/-! ## Deduplicating accumulation

Both orchestrators fold each page's records into the run accumulator with
`for job in page_jobs: if job not in jobs: jobs.append(job)`.  Python's
`in` on a list of dicts is structural equality of the whole dict. -/

/-- The `if job not in jobs: jobs.append(job)` accumulation loop, common to
`base_extractor.extract` (lines 231-233) and `base2_extractor.extract`
(lines 153-155). -/
def addNewJobs {α : Type} [DecidableEq α] : List α → List α → List α
  | acc, [] => acc
  | acc, j :: rest => addNewJobs (if j ∈ acc then acc else acc ++ [j]) rest

/-! ## The inline extraction pass of `base_extractor.extract`

Models the JavaScript function passed to `page.evaluate` at lines 159-228
of `base_extractor.py`.  The per-container body is wrapped in a single
`try`/`catch`, so a selector that throws inside any of the three inner
loops drops the whole container; the container-selector loop itself has no
`try`/`catch`, so a throwing container selector aborts the evaluation. -/

/-- JavaScript's `String.prototype.trim` (and Python's `str.strip` where
it appears): drop leading and trailing whitespace.  Defined by structural
recursion over the character list so that it evaluates inside the kernel. -/
def jsTrim (s : String) : String :=
  String.mk (((s.toList.dropWhile Char.isWhitespace).reverse.dropWhile Char.isWhitespace).reverse)

/-- JavaScript `url.match(/\d+/)`: the first maximal run of decimal digits
of the string, or the empty string when there is none (in which case the
script leaves `job_id` as the empty string). -/
def firstDigitRun (s : String) : String :=
  String.mk (((s.toList.dropWhile (fun ch => !ch.isDigit)).takeWhile Char.isDigit))

/-- The title / location loops of the inline pass: take the trimmed
`textContent` of the first selector that finds an element, the empty
string if none does, and propagate a thrown selector error (`.error`) to
the container-level catch. -/
def inlineTextLoop (c : Container) : List String → Except Unit String
  | [] => .ok ""
  | s :: rest =>
    match c.query s with
    | .err => .error ()
    | .found n => .ok (jsTrim n.textContent)
    | .absent => inlineTextLoop c rest

/-- The link loop of the inline pass: the first selector whose element has
a truthy `href` yields `(url, job_id)`; an element without `href` lets the
loop continue; a thrown selector error propagates. -/
def inlineLinkLoop (c : Container) : List String → Except Unit (String × String)
  | [] => .ok ("", "")
  | s :: rest =>
    match c.query s with
    | .err => .error ()
    | .found n =>
      if n.href ≠ "" then .ok (n.href, firstDigitRun n.href)
      else inlineLinkLoop c rest
    | .absent => inlineLinkLoop c rest

/-- Per-container body of the inline pass.  `none` both when the
`if (title && (url || location))` guard rejects the container and when a
selector threw (the surrounding `catch` logs and drops the container). -/
def inlineProcessContainer (c : Container)
    (tSels lSels kSels : List String) : Option PageJob :=
  match inlineTextLoop c tSels, inlineTextLoop c lSels, inlineLinkLoop c kSels with
  | .ok t, .ok loc, .ok (u, jid) =>
    if t ≠ "" ∧ (u ≠ "" ∨ loc ≠ "") then some ⟨t, loc, u, jid⟩ else none
  | _, _, _ => none

/-- Container discovery of the inline pass: the first container selector
whose `querySelectorAll` is non-empty supplies all containers; an empty
match list moves to the next selector; a thrown selector error aborts the
whole evaluation (no `try`/`catch` around this loop). -/
def inlineFindContainers (doc : Doc) : List String → Except Unit (List Container)
  | [] => .ok []
  | s :: rest =>
    match doc.queryAll s with
    | .err => .error ()
    | .ok [] => inlineFindContainers doc rest
    | .ok (c :: cs) => .ok (c :: cs)

/-- The whole inline `page.evaluate` pass of `base_extractor.extract`. -/
def inlineExtractPass (doc : Doc)
    (cSels tSels lSels kSels : List String) : Except Unit (List PageJob) :=
  match inlineFindContainers doc cSels with
  | .error _ => .error ()
  | .ok cs => .ok (cs.filterMap (fun c => inlineProcessContainer c tSels lSels kSels))

/-! ## The `extract_job_links` pass (identical JavaScript in both modules) -/

/-- JavaScript helper `safeQuerySelector`: each candidate is tried inside
its own `try`/`catch`, a thrown selector error moves to the next
candidate, and `null` is returned only after every candidate failed. -/
def safeQuerySelector (c : Container) : List String → Option Node
  | [] => none
  | s :: rest =>
    match c.query s with
    | .found n => some n
    | .absent => safeQuerySelector c rest
    | .err => safeQuerySelector c rest

/-- JavaScript helper `findJobElements`: concatenates the
`querySelectorAll` matches of every container selector (selectors that
throw contribute nothing), in selector order. -/
def findJobElements (doc : Doc) : List String → List Container
  | [] => []
  | s :: rest =>
    match doc.queryAll s with
    | .err => findJobElements doc rest
    | .ok cs => cs ++ findJobElements doc rest

/-- Per-selector match list with thrown errors flattened to the empty
list; `findJobElements` is its concatenation over the cascade. -/
def qAllOrNil (doc : Doc) (s : String) : List Container :=
  match doc.queryAll s with
  | .err => []
  | .ok cs => cs

/-- The link loop of `extract_job_links`: the first candidate whose found
element carries a truthy `href` wins (a found element without `href` does
not stop the loop, matching `if (link?.href) break`). -/
def jlFindLink (c : Container) : List String → Option Node
  | [] => none
  | s :: rest =>
    match c.query s with
    | .found n => if n.href ≠ "" then some n else jlFindLink c rest
    | .absent => jlFindLink c rest
    | .err => jlFindLink c rest

/-- Per-container body of `extract_job_links`: resolve a link (falling
back to the container itself when it is an `<a>` with a truthy `href`),
then title (falling back to the link's text when the title cascade finds
nothing or empty text), then location; emit only when the trimmed title is
non-empty. -/
def jlProcessContainer (c : Container)
    (tSels lSels kSels : List String) : Option LinkJob :=
  let link? : Option Node :=
    match jlFindLink c kSels with
    | some n => some n
    | none =>
      if c.tagName = "A" ∧ c.href ≠ "" then some ⟨c.textContent, c.href⟩ else none
  match link? with
  | none => none
  | some ln =>
    let title :=
      match safeQuerySelector c tSels with
      | some n => if n.textContent ≠ "" then n.textContent else ln.textContent
      | none => ln.textContent
    let location :=
      match safeQuerySelector c lSels with
      | some n => n.textContent
      | none => ""
    if jsTrim title ≠ "" then some ⟨ln.href, jsTrim title, jsTrim location⟩ else none

/-- The whole `page.evaluate` body of `extract_job_links`: process the
concatenated containers, collecting records into a JavaScript `Set` of
JSON strings — i.e. structural deduplication preserving first-seen
insertion order, which is exactly `addNewJobs []`. -/
def jlPass (doc : Doc) (cSels tSels lSels kSels : List String) : List LinkJob :=
  addNewJobs []
    ((findJobElements doc cSels).filterMap (fun c => jlProcessContainer c tSels lSels kSels))

/-! ## Page readiness (`JobScraper.wait_for_page_load`, `src/utils/scraper.py` 64-89)

A page, as far as the detector observes it, is: whether the networkidle
signal fires within its 30s timeout, which container patterns
`wait_for_selector` finds within their 5s timeouts (per-pattern failures,
timeout or otherwise, are swallowed by the inner `try`/`except`), and the
result of `page.content()` (`none` modelling a raised error, which the
outer `except` turns into `False`). -/

structure ScrapePage where
  networkIdle : Bool
  selFound : String → Bool
  content : Option String

/-- Decides whether `needle` occurs as a contiguous substring of `hay`,
modelling Python's `in` on strings. -/
def strContains (hay needle : String) : Bool :=
  decide (needle.toList <:+: hay.toList)

/-- The keyword fallback `any(term in content.lower() for term in
['job', 'career', 'position'])` of `wait_for_page_load`. -/
def hasJobTerm (content : String) : Bool :=
  [("job" : String), "career", "position"].any (fun t => strContains content.toLower t)

/-- The keyword layer as the caller sees it: `false` when `page.content()`
raised (outer `except` returns `False`). -/
def keywordFallback (p : ScrapePage) : Bool :=
  match p.content with
  | some c => hasJobTerm c
  | none => false

/-- `JobScraper.wait_for_page_load`.  A networkidle timeout raises and is
caught by the outer `except`, which returns `False` without consulting the
other layers; otherwise the container-pattern layer short-circuits on the
first found pattern and the keyword layer is the last resort. -/
def wait_for_page_load (p : ScrapePage) : Bool :=
  if p.networkIdle then
    if scraper_container_patterns.any p.selFound then true
    else keywordFallback p
  else false

/-! ## `extract_job_links` at the Python level (both modules, lines 264-363 / 186-285)

The method checks readiness, reloads and re-checks once on failure, then
runs the JavaScript pass; its `try`/`except` converts every raised error
(including a failed `page.reload()` or a failed `page.evaluate`) into the
empty list. -/

/-- Environment of one `extract_job_links` call: readiness observations
before (`p1`) and after (`p2`) the reload, whether `page.reload()`
succeeds, whether the `page.evaluate` transport succeeds, and the document
the JavaScript pass runs against. -/
structure JLEnv where
  p1 : ScrapePage
  reloadOk : Bool
  p2 : ScrapePage
  evalOk : Bool
  doc : Doc

/-- `BaseExtractor.extract_job_links` (identical in both modules up to the
selector lists, which are passed in). -/
def extract_job_links (e : JLEnv) (cSels tSels lSels kSels : List String) : List LinkJob :=
  if wait_for_page_load e.p1 then
    (if e.evalOk then jlPass e.doc cSels tSels lSels kSels else [])
  else if e.reloadOk = false then []
  else if wait_for_page_load e.p2 then
    (if e.evalOk then jlPass e.doc cSels tSels lSels kSels else [])
  else []

/-! ## Orchestrator of `base_extractor.extract` (lines 126-262)

The world fixes the outcome of each fallible browser operation.  `goto` is
a function of the attempt index even though this orchestrator only ever
consults attempt `0` (it performs a single `page.goto` with no retry);
this lets a world express that a retry would have succeeded.  The probing
loop at lines 138-147 wraps each `wait_for_selector` in
`try`/`except`/`continue` and its result is never used afterwards, so it
is observationally irrelevant and not modelled. -/

structure World1 where
  newPageOk : Bool
  gotoOk : Nat → Bool
  idle0Ok : Bool
  idleOk : Nat → Bool
  evalOk : Nat → Bool
  doc : Nat → Doc
  next : Nat → Bool
  closeOk : Bool

/-- The `except` handler of `base_extractor.extract` (lines 252-262): the
screenshot attempt is swallowed by its inner `try`/`except`, then
`await page.close()` runs unprotected — its failure propagates past the
method — and on success the handler returns `[]`. -/
def b1_handler (w : World1) : Except Unit (List PageJob) :=
  if w.closeOk then .ok [] else .error ()

/-- The `while current_page <= max_pages` loop of `base_extractor.extract`:
networkidle wait (raises into the handler), inline evaluation (transport
failure or a JavaScript throw raises into the handler), deduplicating
accumulation, then break on the page bound or on `try_next_page` failing
(`try_next_page` wraps each candidate in `try`/`except`/`continue` and
always returns a boolean).  The fuel argument only serves structural
recursion; `maxPages + 1` is enough for every reachable call. -/
def b1Loop (w : World1) (maxPages : Nat) : Nat → List PageJob → Nat → Except Unit (List PageJob)
  | _, acc, 0 => .ok acc
  | i, acc, fuel + 1 =>
    if maxPages < i then .ok acc
    else if w.idleOk i = false then .error ()
    else if w.evalOk i = false then .error ()
    else
      match inlineExtractPass (w.doc i) b1_containers b1_title_selectors
          b1_location_selectors b1_link_selectors with
      | .error _ => .error ()
      | .ok pageJobs =>
        let acc' := addNewJobs acc pageJobs
        if maxPages ≤ i then .ok acc'
        else if w.next i = false then .ok acc'
        else b1Loop w maxPages (i + 1) acc' fuel

/-- `BaseExtractor.extract` of `base_extractor.py`.  A failing
`browser.new_page()` leaves `page` unbound, so the handler skips the
close and returns `[]`; afterwards every raised error reaches
`b1_handler`.  The single `page.goto` consults attempt `0` only. -/
def b1_extract (w : World1) (maxPages : Nat) : Except Unit (List PageJob) :=
  if w.newPageOk = false then .ok []
  else if w.gotoOk 0 = false then b1_handler w
  else if w.idle0Ok = false then b1_handler w
  else
    match b1Loop w maxPages 1 [] (maxPages + 1) with
    | .error _ => b1_handler w
    | .ok jobs => if w.closeOk then .ok jobs else b1_handler w

/-! ## Orchestrator of `base2_extractor.extract` (lines 87-184)

Initial load: `for attempt in range(3)`, each attempt being `page.goto`
followed by a selector wait whose failure falls back (via the inner bare
`except`) to a networkidle wait; an attempt succeeds when `goto` succeeds
and either wait does.  The third failed attempt re-raises into the outer
handler.  The page loop never raises: `extract_job_links` catches its own
errors and `try_next_page` always returns a boolean. -/

structure World2 where
  newContextOk : Bool
  newPageOk : Bool
  gotoOk : Nat → Bool
  selWaitOk : Nat → Bool
  idleWaitOk : Nat → Bool
  env : Nat → JLEnv
  next : Nat → Bool
  closeOk : Bool

/-- One initial-load attempt of `base2_extractor.extract` (lines 119-141). -/
def b2AttemptOk (w : World2) (k : Nat) : Bool :=
  w.gotoOk k && (w.selWaitOk k || w.idleWaitOk k)

/-- The bounded initial-load retry of `base2_extractor.extract`
(`max_retries = 3`): `true` when some of the three attempts succeeds,
`false` when the third failure re-raises. -/
def b2InitialLoadOk (w : World2) : Bool :=
  b2AttemptOk w 0 || b2AttemptOk w 1 || b2AttemptOk w 2

/-- The `except` handler of `base2_extractor.extract` (lines 174-184),
structurally identical to `b1_handler`. -/
def b2_handler (w : World2) : Except Unit (List LinkJob) :=
  if w.closeOk then .ok [] else .error ()

/-- The page loop of `base2_extractor.extract`: extraction via
`extract_job_links` (total), deduplicating accumulation, break on the page
bound or on `try_next_page` failing.  Total, because no step of the loop
body can raise. -/
def b2Loop (w : World2) (maxPages : Nat) : Nat → List LinkJob → Nat → List LinkJob
  | _, acc, 0 => acc
  | i, acc, fuel + 1 =>
    if maxPages < i then acc
    else
      let pageJobs := extract_job_links (w.env i) b2_containers b2_title_selectors
        b2_location_selectors b2_link_selectors
      let acc' := addNewJobs acc pageJobs
      if maxPages ≤ i then acc'
      else if w.next i = false then acc'
      else b2Loop w maxPages (i + 1) acc' fuel

/-- `BaseExtractor.extract` of `base2_extractor.py`.  A failing
`new_context` or `new_page` leaves `page` unbound (the handler returns
`[]` without closing); a failed initial load after three attempts raises
into the handler; otherwise the loop result is returned after the
unprotected `page.close()`. -/
def b2_extract (w : World2) (maxPages : Nat) : Except Unit (List LinkJob) :=
  if w.newContextOk = false then .ok []
  else if w.newPageOk = false then .ok []
  else if b2InitialLoadOk w = false then b2_handler w
  else
    let jobs := b2Loop w maxPages 1 [] (maxPages + 1)
    if w.closeOk then .ok jobs else b2_handler w

/-! ## Concrete fixtures for counterexamples and witnesses -/

/-- A title element with surrounding whitespace, exercising `.trim()`. -/
def nodeTitle : Node := ⟨" Software Engineer ", ""⟩

/-- A link element with a digit-bearing href. -/
def nodeLink : Node := ⟨"Apply", "https://ex.com/jobs/123"⟩

/-- A container whose title cascade matches at `.job-title` and whose link
cascade matches at the first link selector. -/
def contA : Container :=
  ⟨"DIV", "", "", fun s =>
    if s = ".job-title" then .found nodeTitle
    else if s = "a[href*=\"/jobs/\"]" then .found nodeLink
    else .absent⟩

/-- A document whose first container pattern matches exactly `[contA]`. -/
def doc1 : Doc := ⟨fun s => if s = ".job-tile" then .ok [contA] else .ok []⟩

/-- The record the inline pass extracts from `doc1`. -/
def pj1 : PageJob := ⟨"Software Engineer", "", "https://ex.com/jobs/123", "123"⟩

/-- A container that is itself an anchor with an href; no inner selector
matches, so `extract_job_links` falls back to the container itself and to
its text content for the title. -/
def contL : Container := ⟨"A", "Fallback Title", "https://ex.com/careers/9", fun _ => .absent⟩

/-- A document for the `extract_job_links` pass matching `[contL]`. -/
def jlDoc : Doc := ⟨fun s => if s = ".job-tile" then .ok [contL] else .ok []⟩

/-- The record `extract_job_links` extracts from `jlDoc`. -/
def ljob1 : LinkJob := ⟨"https://ex.com/careers/9", "Fallback Title", ""⟩

/-- A container with non-empty title and location but no resolvable link
and not itself an anchor. -/
def contNoLink : Container :=
  ⟨"DIV", "", "", fun s =>
    if s = ".job-title" then .found ⟨"Great Job", ""⟩
    else if s = ".location-text" then .found ⟨"NYC", ""⟩
    else .absent⟩

/-- A container matched by the first container pattern of `b2_containers`. -/
def contMixA : Container := ⟨"DIV", "first pattern match", "", fun _ => .absent⟩

/-- A container matched by the second container pattern of `b2_containers`. -/
def contMixB : Container := ⟨"TR", "second pattern match", "", fun _ => .absent⟩

/-- A document on which the first two container patterns both yield
matches: `.job-tile` yields `[contMixA]` and `[data-job-id]` yields
`[contMixB]`. -/
def mixDoc : Doc :=
  ⟨fun s =>
    if s = ".job-tile" then .ok [contMixA]
    else if s = "[data-job-id]" then .ok [contMixB]
    else .ok []⟩

/-- A plain title element for the malformed-selector fixtures. -/
def nodeH1 : Node := ⟨"Engineer", ""⟩

/-- A container whose first title candidate `.job-title` throws, while the
later candidate `h1` would match and a link is resolvable. -/
def contErr : Container :=
  ⟨"DIV", "", "", fun s =>
    if s = ".job-title" then .err
    else if s = "h1" then .found nodeH1
    else if s = "a[href*=\"/jobs/\"]" then .found nodeLink
    else .absent⟩

/-- A document with no matches for any selector. -/
def emptyDoc : Doc := ⟨fun _ => .ok []⟩

/-- A `base_extractor` world where every operation succeeds, every page
renders `doc1`, and a next-page control is always found. -/
def w1All : World1 :=
  { newPageOk := true, gotoOk := fun _ => true, idle0Ok := true,
    idleOk := fun _ => true, evalOk := fun _ => true,
    doc := fun _ => doc1, next := fun _ => true, closeOk := true }

/-- A `base_extractor` world where page 1 extracts fine but the evaluation
transport fails from page 2 on. -/
def w4 : World1 := { w1All with evalOk := fun i => i == 1 }

/-- A `base_extractor` world where page 1 extracts fine and pagination
then fails (no next-page control found). -/
def w4p : World1 := { w1All with next := fun _ => false }

/-- A `base_extractor` world where the single initial `page.goto` fails
although a second attempt would have succeeded. -/
def w9 : World1 := { w1All with gotoOk := fun k => !(k == 0) }

/-- A ready page: networkidle fires and the first scraper container
pattern is found. -/
def pageReady : ScrapePage := ⟨true, fun s => s == ".job-tile", some ""⟩

/-- An exhausted page: the idle signal never fires, no container pattern
matches, and `page.content()` raises. -/
def pageDead : ScrapePage := ⟨false, fun _ => false, none⟩

/-- An `extract_job_links` environment whose page is ready at the first
check and renders `jlDoc`. -/
def envReady : JLEnv := ⟨pageReady, true, pageReady, true, jlDoc⟩

/-- An `extract_job_links` environment whose page stays exhausted through
the reload-and-retry. -/
def envDead : JLEnv := ⟨pageDead, true, pageDead, true, jlDoc⟩

/-- A `base2_extractor` world where everything succeeds and every page is
`envReady`. -/
def w2All : World2 :=
  { newContextOk := true, newPageOk := true, gotoOk := fun _ => true,
    selWaitOk := fun _ => true, idleWaitOk := fun _ => false,
    env := fun _ => envReady, next := fun _ => true, closeOk := true }

/-- A `base2_extractor` world whose first initial-load attempt fails and
whose second succeeds. -/
def w2Retry : World2 := { w2All with gotoOk := fun k => !(k == 0) }

/-! ## Helper lemmas -/

/-- Membership in the deduplicating accumulator is membership in either
argument. -/
theorem mem_addNewJobs {α : Type} [DecidableEq α] (inc : List α) :
    ∀ (acc : List α) (x : α), x ∈ addNewJobs acc inc ↔ x ∈ acc ∨ x ∈ inc := by
  induction inc with
  | nil => intro acc x; simp [addNewJobs]
  | cons j rest ih =>
    intro acc x
    rw [addNewJobs, ih]
    by_cases hj : j ∈ acc
    · simp only [if_pos hj, List.mem_cons]
      constructor
      · rintro (h | h)
        · exact .inl h
        · exact .inr (.inr h)
      · rintro (h | rfl | h)
        · exact .inl h
        · exact .inl hj
        · exact .inr h
    · simp only [if_neg hj, List.mem_append, List.mem_singleton, List.mem_cons]
      tauto

/-- The accumulator is extended, never rewritten: the existing list is a
prefix of the result. -/
theorem prefix_addNewJobs {α : Type} [DecidableEq α] (inc : List α) :
    ∀ acc : List α, acc <+: addNewJobs acc inc := by
  induction inc with
  | nil => intro acc; rw [addNewJobs]
  | cons j rest ih =>
    intro acc
    rw [addNewJobs]
    refine List.IsPrefix.trans ?_ (ih _)
    by_cases hj : j ∈ acc
    · rw [if_pos hj]
    · rw [if_neg hj]; exact List.prefix_append _ _

/-- Accumulation preserves freedom from duplicates. -/
theorem nodup_addNewJobs {α : Type} [DecidableEq α] (inc : List α) :
    ∀ acc : List α, acc.Nodup → (addNewJobs acc inc).Nodup := by
  induction inc with
  | nil => intro acc h; rw [addNewJobs]; exact h
  | cons j rest ih =>
    intro acc h
    rw [addNewJobs]
    apply ih
    by_cases hj : j ∈ acc
    · rw [if_pos hj]; exact h
    · rw [if_neg hj]
      simp [List.nodup_append, h, hj]

/-- Accumulating records that are all already present changes nothing. -/
theorem addNewJobs_eq_self {α : Type} [DecidableEq α] (inc : List α) :
    ∀ acc : List α, (∀ x ∈ inc, x ∈ acc) → addNewJobs acc inc = acc := by
  induction inc with
  | nil => intro acc _; rfl
  | cons j rest ih =>
    intro acc h
    rw [addNewJobs, if_pos (h j (List.mem_cons_self _ _))]
    exact ih acc (fun x hx => h x (List.mem_cons_of_mem _ hx))

/-- An erring candidate of `safeQuerySelector` is transparent: removing it
from the cascade does not change the result. -/
theorem safeQuerySelector_err_skip (c : Container) (s : String) (h : c.query s = .err)
    (pre post : List String) :
    safeQuerySelector c (pre ++ s :: post) = safeQuerySelector c (pre ++ post) := by
  induction pre with
  | nil => simp [safeQuerySelector, h]
  | cons p pre ih =>
    cases hq : c.query p <;> simp [safeQuerySelector, hq, ih]

/-- `safeQuerySelector` reports absence exactly when no candidate finds an
element. -/
theorem safeQuerySelector_eq_none (c : Container) :
    ∀ sels : List String,
      safeQuerySelector c sels = none ↔ ∀ s ∈ sels, ∀ n, c.query s ≠ .found n := by
  intro sels
  induction sels with
  | nil => simp [safeQuerySelector]
  | cons s rest ih =>
    cases hq : c.query s with
    | found n =>
      simp only [safeQuerySelector, hq, List.mem_cons]
      constructor
      · intro h; cases h
      · intro h
        exact absurd hq (h s (.inl rfl) n)
    | absent =>
      simp only [safeQuerySelector, hq, ih, List.mem_cons]
      constructor
      · intro h x hx n
        rcases hx with rfl | hx
        · rw [hq]; intro h2; cases h2
        · exact h x hx n
      · intro h x hx n
        exact h x (.inr hx) n
    | err =>
      simp only [safeQuerySelector, hq, ih, List.mem_cons]
      constructor
      · intro h x hx n
        rcases hx with rfl | hx
        · rw [hq]; intro h2; cases h2
        · exact h x hx n
      · intro h x hx n
        exact h x (.inr hx) n

/-- An erring container pattern of `findJobElements` is transparent:
removing it from the cascade does not change the result. -/
theorem findJobElements_err_skip (doc : Doc) (s : String) (h : doc.queryAll s = .err)
    (pre post : List String) :
    findJobElements doc (pre ++ s :: post) = findJobElements doc (pre ++ post) := by
  induction pre with
  | nil => simp [findJobElements, h]
  | cons p pre ih =>
    cases hq : doc.queryAll p <;> simp [findJobElements, hq, ih]

/-- `findJobElements` is the concatenation, in cascade order, of every
container pattern's match list. -/
theorem findJobElements_eq_join (doc : Doc) :
    ∀ sels : List String, findJobElements doc sels = (sels.map (qAllOrNil doc)).flatten := by
  intro sels
  induction sels with
  | nil => rfl
  | cons s rest ih =>
    cases hq : doc.queryAll s <;> simp [findJobElements, qAllOrNil, hq, ih]

/-- First-pattern-wins of the inline pass: a non-empty container list
comes verbatim from the first pattern whose match list is non-empty, every
earlier pattern having matched nothing (and none having thrown). -/
theorem inlineFindContainers_first (doc : Doc) :
    ∀ (sels : List String) (cs : List Container),
      inlineFindContainers doc sels = .ok cs → cs ≠ [] →
      ∃ pre s post, sels = pre ++ s :: post ∧ doc.queryAll s = .ok cs ∧
        ∀ s2 ∈ pre, doc.queryAll s2 = .ok [] := by
  intro sels
  induction sels with
  | nil =>
    intro cs h hne
    rw [inlineFindContainers] at h
    cases h
    exact absurd rfl hne
  | cons s rest ih =>
    intro cs h hne
    rw [inlineFindContainers] at h
    cases hq : doc.queryAll s with
    | err => rw [hq] at h; cases h
    | ok ds =>
      cases ds with
      | nil =>
        rw [hq] at h
        obtain ⟨pre, s2, post, rfl, hq2, hpre⟩ := ih cs h hne
        refine ⟨s :: pre, s2, post, rfl, hq2, ?_⟩
        intro x hx
        rcases List.mem_cons.1 hx with rfl | hx
        · exact hq
        · exact hpre x hx
      | cons d ds =>
        rw [hq] at h
        injection h with h
        subst h
        exact ⟨[], s, rest, rfl, hq, by simp⟩

/-- A link resolved by the link loop of `extract_job_links` always
carries a non-empty href. -/
theorem jlFindLink_href (c : Container) :
    ∀ (ks : List String) (n : Node), jlFindLink c ks = some n → n.href ≠ "" := by
  intro ks
  induction ks with
  | nil => intro n h; cases h
  | cons s rest ih =>
    intro n h
    rw [jlFindLink] at h
    split at h
    · split at h
      · next hm =>
        injection h with h
        subst h
        exact hm
      · exact ih n h
    · exact ih n h
    · exact ih n h

/-- Every record emitted by the per-container body of `extract_job_links`
has a non-empty (trimmed) title and a non-empty url. -/
theorem jlProcessContainer_invariant (c : Container) (tSels lSels kSels : List String)
    (j : LinkJob) (h : jlProcessContainer c tSels lSels kSels = some j) :
    j.title ≠ "" ∧ j.url ≠ "" := by
  simp only [jlProcessContainer] at h
  split at h
  · cases h
  · next ln hln =>
    split at h
    · next ht =>
      injection h with h
      subst h
      refine ⟨ht, ?_⟩
      split at hln
      · next n hn =>
        injection hln with hln
        subst hln
        exact jlFindLink_href c kSels n hn
      · split at hln
        · next hcond =>
          injection hln with hln
          subst hln
          exact hcond.2
        · cases hln
    · cases h

/-- Every record emitted by the per-container body of the inline pass has
a non-empty title and a non-empty url or location. -/
theorem inlineProcessContainer_invariant (c : Container) (tSels lSels kSels : List String)
    (j : PageJob) (h : inlineProcessContainer c tSels lSels kSels = some j) :
    j.title ≠ "" ∧ (j.url ≠ "" ∨ j.location ≠ "") := by
  rw [inlineProcessContainer] at h
  split at h
  · next t loc u jid _ _ _ =>
    split at h
    · next hg =>
      injection h with h
      subst h
      exact hg
    · cases h
  · cases h

/-- Modelled from the spec: the normalized dedup key of section 3 — title
compared case- and whitespace-insensitively, url exactly.  This definition
follows the spec's words, not the code; it exists only to compare the
spec's stated record identity with the identity the code actually uses. -/
def specDedupKey (j : PageJob) : String × String :=
  (String.mk ((j.title.toList.map Char.toLower).filter (fun ch => !ch.isWhitespace)), j.url)

/-- Two records with the same title and url but different locations. -/
def pjNY : PageJob := ⟨"Engineer", "New York", "https://ex.com/jobs/7", "7"⟩

/-- Same normalized (title, url) key as `pjNY`, different location. -/
def pjBoston : PageJob := ⟨"Engineer", "Boston", "https://ex.com/jobs/7", "7"⟩

/-- A document whose first container pattern throws. -/
def docErrSel : Doc := ⟨fun s => if s = ".job-tile" then .err else .ok []⟩

/-- The orchestrator of `base_extractor.extract` never yields an uncaught
exception when the handler's `page.close()` succeeds: every branch funnels
into the `except` handler, which returns `[]`. -/
theorem b1_extract_ne_error (w : World1) (mp : Nat) (h : w.closeOk = true) (e : Unit) :
    b1_extract w mp ≠ .error e := by
  intro hE
  rw [b1_extract] at hE
  have hh : b1_handler w = .ok [] := by rw [b1_handler, if_pos h]
  rw [hh] at hE
  repeat' split at hE
  all_goals cases hE

/-- The orchestrator of `base2_extractor.extract` never yields an uncaught
exception when the handler's `page.close()` succeeds. -/
theorem b2_extract_ne_error (w : World2) (mp : Nat) (h : w.closeOk = true) (e : Unit) :
    b2_extract w mp ≠ .error e := by
  intro hE
  rw [b2_extract] at hE
  have hh : b2_handler w = .ok [] := by rw [b2_handler, if_pos h]
  rw [hh] at hE
  dsimp only at hE
  repeat' split at hE
  all_goals cases hE

/-- The loop of `base2_extractor.extract` only ever extends its
accumulator: whatever the pages and failures, records accumulated so far
stay in the result. -/
theorem b2Loop_prefix (w : World2) (mp : Nat) :
    ∀ (fuel i : Nat) (acc : List LinkJob), acc <+: b2Loop w mp i acc fuel := by
  intro fuel
  induction fuel with
  | zero => intro i acc; rw [b2Loop]
  | succ fuel ih =>
    intro i acc
    rw [b2Loop]
    split
    · rfl
    · dsimp only
      split
      · exact prefix_addNewJobs _ _
      · split
        · exact prefix_addNewJobs _ _
        · exact (prefix_addNewJobs _ _).trans (ih _ _)

/-! ## Claims -/

/-- Claim C1, counterexample.  The claim says records are identified by
the normalized (title, url) key, the second occurrence of a key being
discarded.  `pjNY` and `pjBoston` have identical titles and urls — equal
keys under any normalization, and equal `specDedupKey` in particular — yet
the accumulation of `base_extractor.extract` keeps both, because the code
compares whole records (`if job not in jobs`), not (title, url) keys. -/
theorem c1_counterexample :
    specDedupKey pjNY = specDedupKey pjBoston ∧ pjNY ≠ pjBoston ∧
    addNewJobs ([] : List PageJob) [pjNY, pjBoston] = [pjNY, pjBoston] :=
  ⟨rfl, by decide, rfl⟩

/-- Claim C1, amended: the run identifies records by exact structural
equality of the whole record (all fields, location and job_id included),
not by normalized (title, url); under that identity the second occurrence
is discarded (no duplicates are ever introduced), the first occurrence
keeps its position (the accumulator is a prefix of the result), and
first-seen order is preserved across pages (membership is exactly the
union of accumulator and page). -/
theorem c1_dedup_exact_equality (acc inc : List PageJob) (h : acc.Nodup) :
    (addNewJobs acc inc).Nodup ∧ acc <+: addNewJobs acc inc ∧
    ∀ x : PageJob, x ∈ addNewJobs acc inc ↔ x ∈ acc ∨ x ∈ inc :=
  ⟨nodup_addNewJobs inc acc h, prefix_addNewJobs inc acc, fun x => mem_addNewJobs inc acc x⟩

/-- Claim C1, witness: the amended dedup law applied to a concrete
accumulator and page. -/
theorem c1_witness :
    (addNewJobs [pjNY] [pjBoston, pjNY]).Nodup ∧
    [pjNY] <+: addNewJobs [pjNY] [pjBoston, pjNY] ∧
    (pjBoston ∈ addNewJobs [pjNY] [pjBoston, pjNY] ↔
      pjBoston ∈ [pjNY] ∨ pjBoston ∈ [pjBoston, pjNY]) := by
  have h := c1_dedup_exact_equality [pjNY] [pjBoston, pjNY] (by decide)
  exact ⟨h.1, h.2.1, h.2.2 pjBoston⟩

/-- Claim C2: both extraction passes emit a record only when its (trimmed)
title is non-empty and its url or location is non-empty; in particular no
record with an empty title ever appears in a pass's result list, failing
containers contributing nothing. -/
theorem c2_emission_invariant :
    (∀ (doc : Doc) (cS tS lS kS : List String) (jobs : List PageJob),
        inlineExtractPass doc cS tS lS kS = .ok jobs →
        ∀ j ∈ jobs, j.title ≠ "" ∧ (j.url ≠ "" ∨ j.location ≠ "")) ∧
    (∀ (doc : Doc) (cS tS lS kS : List String) (j : LinkJob),
        j ∈ jlPass doc cS tS lS kS → j.title ≠ "" ∧ (j.url ≠ "" ∨ j.location ≠ "")) := by
  constructor
  · intro doc cS tS lS kS jobs h j hj
    rw [inlineExtractPass] at h
    split at h
    · cases h
    · injection h with h
      subst h
      obtain ⟨c, _, hc⟩ := List.mem_filterMap.1 hj
      exact inlineProcessContainer_invariant c tS lS kS j hc
  · intro doc cS tS lS kS j hj
    rw [jlPass] at hj
    rcases (mem_addNewJobs _ [] j).1 hj with h | h
    · cases h
    · obtain ⟨c, _, hc⟩ := List.mem_filterMap.1 h
      obtain ⟨ht, hu⟩ := jlProcessContainer_invariant c tS lS kS j hc
      exact ⟨ht, .inl hu⟩

/-- Claim C2, witness: the invariant applied to the records both concrete
passes emit. -/
theorem c2_witness :
    (pj1.title ≠ "" ∧ (pj1.url ≠ "" ∨ pj1.location ≠ "")) ∧
    (ljob1.title ≠ "" ∧ (ljob1.url ≠ "" ∨ ljob1.location ≠ "")) :=
  ⟨c2_emission_invariant.1 doc1 b1_containers b1_title_selectors b1_location_selectors
      b1_link_selectors [pj1] rfl pj1 (List.mem_singleton.2 rfl),
   c2_emission_invariant.2 jlDoc b2_containers b2_title_selectors b2_location_selectors
      b2_link_selectors ljob1 (List.mem_singleton.2 rfl : ljob1 ∈ [ljob1])⟩

/-- Claim C3: both orchestrating `extract` methods return a result list
(`.ok`, possibly empty) for every world — every navigation failure,
extraction error and pagination outcome — provided the cleanup
`page.close()` of the handler succeeds (a behaviour outside the claim's
enumerated page behaviours, which the model keeps explicit). -/
theorem c3_orchestrator_total (mp : Nat) (w1 : World1) (w2 : World2)
    (h1 : w1.closeOk = true) (h2 : w2.closeOk = true) :
    (b1_extract w1 mp).isOk = true ∧ (b2_extract w2 mp).isOk = true := by
  constructor
  · cases hE : b1_extract w1 mp with
    | ok l => rfl
    | error e => exact absurd hE (b1_extract_ne_error w1 mp h1 e)
  · cases hE : b2_extract w2 mp with
    | ok l => rfl
    | error e => exact absurd hE (b2_extract_ne_error w2 mp h2 e)

/-- Claim C3, witness: totality applied to concrete worlds. -/
theorem c3_witness :
    (b1_extract w1All 1).isOk = true ∧ (b2_extract w2All 1).isOk = true :=
  c3_orchestrator_total 1 w1All w2All rfl rfl

/-- Claim C4, counterexample.  In world `w4`, page 1 extracts `pj1` (the
one-page run returns it) and pagination succeeds, but page 2's evaluation
raises; the two-page run of `base_extractor.extract` then returns the
empty list — the accumulated records are discarded by the later-page
extraction failure, contradicting the claim that they are returned. -/
theorem c4_counterexample :
    b1_extract w4 1 = .ok [pj1] ∧ w4.next 1 = true ∧ w4.evalOk 2 = false ∧
    b1_extract w4 2 = .ok [] :=
  ⟨rfl, rfl, rfl, rfl⟩

/-- Claim C4, amended: when pagination fails after a successful page, the
run of `base_extractor.extract` returns the records accumulated so far
(the accumulator is extended by the current page and returned, never
discarded); and in `base2_extractor.extract` the accumulator survives
every later-page behaviour, because its extraction step catches its own
errors.  Only a later-page extraction error in `base_extractor.extract`
discards the accumulator (the counterexample). -/
theorem c4_partial_results (w : World1) (w2 : World2) (mp i fuel i2 fuel2 : Nat)
    (acc pj : List PageJob) (acc2 : List LinkJob)
    (hlt : i < mp) (hidle : w.idleOk i = true) (heval : w.evalOk i = true)
    (hpass : inlineExtractPass (w.doc i) b1_containers b1_title_selectors
        b1_location_selectors b1_link_selectors = .ok pj)
    (hnext : w.next i = false) :
    b1Loop w mp i acc (fuel + 1) = .ok (addNewJobs acc pj) ∧
    acc <+: addNewJobs acc pj ∧
    acc2 <+: b2Loop w2 mp i2 acc2 fuel2 := by
  refine ⟨?_, prefix_addNewJobs _ _, b2Loop_prefix w2 mp fuel2 i2 acc2⟩
  have h1 : ¬ mp < i := by omega
  have h2 : ¬ mp ≤ i := by omega
  rw [b1Loop, if_neg h1, hidle]
  rw [if_neg (by simp : ¬ (true = false))]
  rw [heval, if_neg (by simp : ¬ (true = false)), hpass]
  dsimp only
  rw [if_neg h2, hnext, if_pos rfl]

/-- Claim C4, witness: pagination fails after page 1 of world `w4p`; the
loop returns the page-1 records. -/
theorem c4_witness :
    b1Loop w4p 2 1 [] (0 + 1) = .ok (addNewJobs [] [pj1]) ∧
    ([] : List PageJob) <+: addNewJobs [] [pj1] ∧
    ([] : List LinkJob) <+: b2Loop w2All 2 1 [] 0 :=
  c4_partial_results w4p w2All 2 1 0 1 0 [] [pj1] []
    (by omega) rfl rfl rfl rfl

/-- Claim C5, counterexample.  On `mixDoc` the first container pattern of
`b2_containers` already yields `[contMixA]`, yet `findJobElements` (the
container discovery of `extract_job_links`) also processes `contMixB`,
which only the second pattern matches: containers of one page are mixed
across candidate patterns, contradicting first-pattern-wins. -/
theorem c5_counterexample :
    mixDoc.queryAll (".job-tile") = .ok [contMixA] ∧
    mixDoc.queryAll ("[data-job-id]") = .ok [contMixB] ∧
    findJobElements mixDoc b2_containers = [contMixA, contMixB] ∧
    contMixA.tagName ≠ contMixB.tagName :=
  ⟨rfl, rfl, rfl, by decide⟩

/-- Claim C5, amended: the inline pass of `base_extractor.extract` does
use the first container pattern that yields any matches, exclusively, all
earlier patterns having matched nothing; `extract_job_links`, however,
concatenates the matches of every container pattern in cascade order. -/
theorem c5_container_patterns (doc : Doc) (sels : List String) (cs : List Container)
    (h : inlineFindContainers doc sels = .ok cs) (hne : cs ≠ []) :
    (∃ pre s post, sels = pre ++ s :: post ∧ doc.queryAll s = .ok cs ∧
      ∀ s2 ∈ pre, doc.queryAll s2 = .ok []) ∧
    ∀ (d : Doc) (ss : List String), findJobElements d ss = (ss.map (qAllOrNil d)).flatten :=
  ⟨inlineFindContainers_first doc sels cs h hne, fun d ss => findJobElements_eq_join d ss⟩

/-- Claim C5, witness: the characterization applied to `doc1` (whose first
pattern yields the whole container list), projected at `mixDoc`. -/
theorem c5_witness :
    findJobElements mixDoc b2_containers = (b2_containers.map (qAllOrNil mixDoc)).flatten :=
  (c5_container_patterns doc1 b1_containers [contA] rfl (List.cons_ne_nil contA [])).2
    mixDoc b2_containers

/-- Claim C6, counterexample.  In the inline pass of
`base_extractor.extract`, the first title candidate of `contErr` throws
while the later candidate `h1` matches; the title cascade aborts with the
thrown error instead of trying the next candidate, and the whole container
is dropped (no record), contradicting the claim for this cascade. -/
theorem c6_counterexample :
    contErr.query (".job-title") = .err ∧
    contErr.query ("h1") = .found nodeH1 ∧
    inlineTextLoop contErr b1_title_selectors = .error () ∧
    inlineProcessContainer contErr b1_title_selectors b1_location_selectors
      b1_link_selectors = none :=
  ⟨rfl, rfl, rfl, rfl⟩

/-- Claim C6, amended: in the cascades of `extract_job_links`
(`safeQuerySelector` for roles, `findJobElements` for containers) a
throwing candidate is caught and skipped — it is transparent to the
cascade — and a role is reported absent exactly when no candidate finds an
element; the inline pass of `base_extractor.extract`, by contrast, aborts
the container on a throwing candidate (the counterexample). -/
theorem c6_cascade_isolation (c : Container) (doc : Doc) (s t : String)
    (pre post pre2 post2 : List String)
    (hs : c.query s = .err) (ht : doc.queryAll t = .err) :
    safeQuerySelector c (pre ++ s :: post) = safeQuerySelector c (pre ++ post) ∧
    findJobElements doc (pre2 ++ t :: post2) = findJobElements doc (pre2 ++ post2) ∧
    ∀ sels : List String,
      safeQuerySelector c sels = none ↔ ∀ x ∈ sels, ∀ n, c.query x ≠ .found n :=
  ⟨safeQuerySelector_err_skip c s hs pre post,
   findJobElements_err_skip doc t ht pre2 post2,
   fun sels => safeQuerySelector_eq_none c sels⟩

/-- Claim C6, witness: the isolation law on a container whose first title
candidate throws, and a document whose first container pattern throws. -/
theorem c6_witness :
    safeQuerySelector contErr ([] ++ ".job-title" :: ["h1"]) =
      safeQuerySelector contErr ([] ++ ["h1"]) ∧
    findJobElements docErrSel ([] ++ ".job-tile" :: [".job-card"]) =
      findJobElements docErrSel ([] ++ [".job-card"]) := by
  have h := c6_cascade_isolation contErr docErrSel ".job-title" ".job-tile"
    [] ["h1"] [] [".job-card"] rfl rfl
  exact ⟨h.1, h.2.1⟩

/-- Claim C7: when within its timeouts the networkidle signal never fires,
no container pattern is ever found and the keyword fallback fails too —
both before and after the caller's single reload-and-retry — the readiness
check returns `false` (never an exception, the model being total), and the
caller `extract_job_links` returns the empty list rather than an error. -/
theorem c7_readiness_returns_false (e : JLEnv) (cS tS lS kS : List String)
    (h1 : e.p1.networkIdle = false) (h2 : ∀ s, e.p1.selFound s = false)
    (h3 : keywordFallback e.p1 = false)
    (h4 : e.p2.networkIdle = false) (h5 : ∀ s, e.p2.selFound s = false)
    (h6 : keywordFallback e.p2 = false) :
    wait_for_page_load e.p1 = false ∧ wait_for_page_load e.p2 = false ∧
    extract_job_links e cS tS lS kS = [] := by
  have wp : wait_for_page_load e.p1 = false := by rw [wait_for_page_load, h1]; rfl
  have wq : wait_for_page_load e.p2 = false := by rw [wait_for_page_load, h4]; rfl
  refine ⟨wp, wq, ?_⟩
  rw [extract_job_links, wp, wq]
  simp

/-- Claim C7, witness: the detector and its caller on the concrete
exhausted environment. -/
theorem c7_witness :
    wait_for_page_load envDead.p1 = false ∧ wait_for_page_load envDead.p2 = false ∧
    extract_job_links envDead b2_containers b2_title_selectors b2_location_selectors
      b2_link_selectors = [] :=
  c7_readiness_returns_false envDead b2_containers b2_title_selectors
    b2_location_selectors b2_link_selectors rfl (fun _ => rfl) rfl rfl (fun _ => rfl) rfl

/-- Claim C8: re-merging the same extracted list into an accumulator that
already merged it produces no new records — the accumulation step is
idempotent on identical input. -/
theorem c8_merge_idempotent (acc L : List PageJob) :
    addNewJobs (addNewJobs acc L) L = addNewJobs acc L :=
  addNewJobs_eq_self L _ (fun x hx => (mem_addNewJobs L acc x).mpr (.inr hx))

/-- Claim C9, counterexample.  In world `w9` the single initial
`page.goto` of `base_extractor.extract` fails while a second attempt would
have succeeded (the world's attempt 1 succeeds, and the same world with a
succeeding attempt 0 yields `[pj1]`); the run nevertheless degrades to the
empty result — it degrades after a single initial-load failure, because
this orchestrator has no retry. -/
theorem c9_counterexample :
    w9.gotoOk 0 = false ∧ w9.gotoOk 1 = true ∧
    b1_extract w9 1 = .ok [] ∧ b1_extract w1All 1 = .ok [pj1] :=
  ⟨rfl, rfl, rfl, rfl⟩

/-- Claim C9, amended: `base2_extractor.extract` retries the initial load
with fixed backoff and proceeds when any of its three attempts succeeds,
giving up exactly when all three fail; `base_extractor.extract` attempts
the initial load once and a single failure already degrades the run to the
empty result. -/
theorem c9_initial_load_retry (w w3 : World2) (w1 : World1) (mp1 : Nat)
    (ha : b2AttemptOk w 0 = false) (hb : b2AttemptOk w 1 = true)
    (hg : w1.gotoOk 0 = false) (hc : w1.closeOk = true) :
    b2InitialLoadOk w = true ∧
    (b2InitialLoadOk w3 = false ↔
      (b2AttemptOk w3 0 = false ∧ b2AttemptOk w3 1 = false ∧ b2AttemptOk w3 2 = false)) ∧
    b1_extract w1 mp1 = .ok [] := by
  refine ⟨?_, ?_, ?_⟩
  · rw [b2InitialLoadOk, ha, hb]; rfl
  · cases h0 : b2AttemptOk w3 0 <;> cases h1 : b2AttemptOk w3 1 <;>
      cases h2 : b2AttemptOk w3 2 <;> simp [b2InitialLoadOk, h0, h1, h2]
  · rw [b1_extract]
    by_cases hn : w1.newPageOk = false
    · rw [if_pos hn]
    · rw [if_neg hn, hg, if_pos rfl, b1_handler, if_pos hc]

/-- Claim C9, witness: the retry law on the world whose first attempt
fails and second succeeds, and the no-retry consequence on `w9`. -/
theorem c9_witness :
    b2InitialLoadOk w2Retry = true ∧
    (b2InitialLoadOk w2Retry = false ↔
      (b2AttemptOk w2Retry 0 = false ∧ b2AttemptOk w2Retry 1 = false ∧
        b2AttemptOk w2Retry 2 = false)) ∧
    b1_extract w9 1 = .ok [] :=
  c9_initial_load_retry w2Retry w2Retry w9 1 rfl rfl rfl rfl

/-- Claim C10: every record `extract_job_links` emits carries a non-empty
url, and a container whose link cascade resolves no href — and which is
not itself an anchor with an href — is never emitted, whatever its title
and location. -/
theorem c10_records_have_url :
    (∀ (doc : Doc) (cS tS lS kS : List String) (j : LinkJob),
        j ∈ jlPass doc cS tS lS kS → j.url ≠ "") ∧
    (∀ (c : Container) (tS lS kS : List String),
        jlFindLink c kS = none → (c.tagName = "A" → c.href = "") →
        jlProcessContainer c tS lS kS = none) := by
  constructor
  · intro doc cS tS lS kS j hj
    rw [jlPass] at hj
    rcases (mem_addNewJobs _ [] j).1 hj with h | h
    · cases h
    · obtain ⟨c, _, hc⟩ := List.mem_filterMap.1 h
      exact (jlProcessContainer_invariant c tS lS kS j hc).2
  · intro c tS lS kS hk hA
    have hcond : ¬ (c.tagName = "A" ∧ c.href ≠ "") := fun hp => hp.2 (hA hp.1)
    simp [jlProcessContainer, hk, hcond]

/-- Claim C10, witness: the url invariant on the record extracted from
`jlDoc`, and the non-emission of the link-less `contNoLink`. -/
theorem c10_witness :
    ljob1.url ≠ "" ∧
    jlProcessContainer contNoLink b2_title_selectors b2_location_selectors
      b2_link_selectors = none :=
  ⟨c10_records_have_url.1 jlDoc b2_containers b2_title_selectors b2_location_selectors
      b2_link_selectors ljob1 (List.mem_singleton.2 rfl : ljob1 ∈ [ljob1]),
   c10_records_have_url.2 contNoLink b2_title_selectors b2_location_selectors
      b2_link_selectors rfl (by decide)⟩

end JobScrape
